import Mathlib

/-!
Shallow embedding of the bookstore REST API (Express + Prisma) for
verification. Pure Lean translations of:
  - `src/utils/pagination.ts` (`PaginationHelper.getPaginationParams`)
  - `src/utils/response.ts` (`ResponseHelper.error`, the `success`-flag
    variant the controllers bind against)
  - `src/controllers/bookController.ts` (`createBook`, `updateBook`)
  - `src/controllers/transactionController.ts` (`createTransaction`,
    `getTransactionStatistics`)
The relational store is a record of lists of rows; Prisma reads become
list lookups and Prisma writes become functional updates.  The Prisma
`$transaction` block is modelled with an explicit failure oracle: step
`n` of the block fails iff `oracle n = true`, and a failing step makes
the whole block return an error, after which the handler's `catch`
returns 500 with the store unchanged (Prisma's rollback guarantee).
-/

/-- Minimal JSON value type for response payloads. -/
inductive JValue where
  | jnull : JValue
  | jbool : Bool → JValue
  | jstr : String → JValue
  | jint : Int → JValue
deriving Repr, DecidableEq, BEq

/-- Outcome of a request handler: an error envelope or a success envelope
with an HTTP status, a message, and a `data` object given as key/value
fields. -/
inductive HResult where
  | err : Nat → String → HResult
  | ok : Nat → String → List (String × JValue) → HResult
deriving Repr, DecidableEq, BEq

/-- `users` table row (only the columns the embedded handlers read). -/
structure User where
  id : String
deriving Repr, DecidableEq

/-- `genres` table row. -/
structure Genre where
  id : String
  name : String
  deleted_at : Option Nat
deriving Repr, DecidableEq

/-- `books` table row. `price` is embedded as an integer number of
currency units; `deleted_at` is the soft-delete timestamp. -/
structure Book where
  id : String
  title : String
  writer : String
  publisher : String
  description : String
  publication_year : Int
  price : Int
  stock_quantity : Int
  genre_id : String
  deleted_at : Option Nat
deriving Repr, DecidableEq

/-- `orders` table row. -/
structure Order where
  id : String
  user_id : String
deriving Repr, DecidableEq

/-- `order_items` table row. -/
structure OrderItem where
  order_id : String
  book_id : String
  quantity : Int
deriving Repr, DecidableEq

/-- The relational store: one list per table. -/
structure Store where
  users : List User
  genres : List Genre
  books : List Book
  orders : List Order
  orderItems : List OrderItem
deriving Repr, DecidableEq

/-- Primary-key well-formedness of the store: book ids are pairwise
distinct (the `id` column is the table's primary key). -/
def storeWF (s : Store) : Prop :=
  (s.books.map (fun b => b.id)).Nodup

instance (s : Store) : Decidable (storeWF s) := by
  unfold storeWF; infer_instance

/-- One line of a transaction-creation request (`TransactionItem` in
`src/types/index.ts`). -/
structure TransactionItem where
  book_id : String
  quantity : Int
deriving Repr, DecidableEq

/-- Body of `POST /transactions` (`CreateTransactionRequest`); absent
fields are `none`. -/
structure CreateTransactionRequest where
  user_id : Option String
  items : Option (List TransactionItem)
deriving Repr, DecidableEq

/-- `prisma.book.findMany({ where: { id: { in: bookIds }, deleted_at: null } })`
with `bookIds = items.map(i => i.book_id)`: the rows of the `books`
table whose id occurs among the requested ids and that are not
soft-deleted. -/
def booksFor (s : Store) (items : List TransactionItem) : List Book :=
  s.books.filter
    (fun b => (items.map (fun i => i.book_id)).contains b.id && b.deleted_at == none)

/-- The `for (const item of items)` validation loop of `createTransaction`
(lines 37–45): find each item's book among the batch-loaded ones, fail
404 if absent, fail 400 naming the book if its stock is below the
requested quantity; `none` means the loop fell through. -/
def checkItems (books : List Book) : List TransactionItem → Option HResult
  | [] => none
  | it :: rest =>
    match books.find? (fun b => b.id == it.book_id) with
    | none => some (HResult.err 404 ("Book " ++ it.book_id ++ " not found"))
    | some b =>
      if b.stock_quantity < it.quantity then
        some (HResult.err 400 ("Insufficient stock for book: " ++ b.title))
      else checkItems books rest

/-- The totals loop of `createTransaction` (lines 47–56): fold over items,
accumulating `(totalQuantity, totalPrice)`; an item whose book is not in
the batch list is skipped (the `if (book)` guard). -/
def computeTotals (books : List Book) (items : List TransactionItem) : Int × Int :=
  items.foldl
    (fun acc it =>
      match books.find? (fun b => b.id == it.book_id) with
      | some b => (acc.1 + it.quantity, acc.2 + b.price * it.quantity)
      | none => acc)
    (0, 0)

/-- `tx.book.update({ where: { id }, data: { stock_quantity: { decrement: q } } })`:
decrement the stock of every row whose id matches (the id is a primary
key, so in a well-formed store at most one row matches). -/
def decStock (books : List Book) (id : String) (q : Int) : List Book :=
  books.map (fun b =>
    if b.id == id then { b with stock_quantity := b.stock_quantity - q } else b)

/-- The per-item write sequence inside the `$transaction` block
(lines 65–82): for each item, create its `OrderItem` row, then decrement
its book's stock.  `n` numbers the remaining write steps for the failure
oracle; a failing step aborts the whole block. -/
def applyItems (orderId : String) (oracle : Nat → Bool) :
    List TransactionItem → Store → Nat → Except Unit Store
  | [], s, _ => Except.ok s
  | it :: rest, s, n =>
    if oracle n then Except.error () else
    let s1 := { s with orderItems := s.orderItems ++ [OrderItem.mk orderId it.book_id it.quantity] }
    if oracle (n + 1) then Except.error () else
    let s2 := { s1 with books := decStock s1.books it.book_id it.quantity }
    applyItems orderId oracle rest s2 (n + 2)

/-- The `$transaction` callback (lines 58–85): create the `Order` row
(step 0), then run the per-item writes (steps 1, 2, …).  Returns the
updated store, or an error if any step failed — in which case Prisma
rolls the whole block back. -/
def txBody (s : Store) (uid orderId : String) (items : List TransactionItem)
    (oracle : Nat → Bool) : Except Unit Store :=
  if oracle 0 then Except.error () else
  applyItems orderId oracle items
    { s with orders := s.orders ++ [Order.mk orderId uid] } 1

/-- `createTransaction` (`src/controllers/transactionController.ts`,
lines 9–100).  `orderId` stands for the database-generated id of the new
`Order` row; `oracle` is the failure oracle of the `$transaction` block.
Returns the HTTP result together with the store after the request. -/
def createTransaction (s : Store) (req : CreateTransactionRequest)
    (orderId : String) (oracle : Nat → Bool) : HResult × Store :=
  match req.user_id, req.items with
  | some uid, some items =>
    if uid.isEmpty || items.isEmpty then (HResult.err 400 "Invalid request data", s)
    else
      match s.users.find? (fun u => u.id == uid) with
      | none => (HResult.err 404 "User not found", s)
      | some _ =>
        if (booksFor s items).length != items.length then
          (HResult.err 404 "One or more books not found", s)
        else
          match checkItems (booksFor s items) items with
          | some r => (r, s)
          | none =>
            match txBody s uid orderId items oracle with
            | Except.error _ => (HResult.err 500 "Internal server error", s)
            | Except.ok s2 =>
              (HResult.ok 201 "Transaction created successfully"
                [("transaction_id", JValue.jstr orderId),
                 ("total_quantity", JValue.jint (computeTotals (booksFor s items) items).1),
                 ("total_price", JValue.jint (computeTotals (booksFor s items) items).2)],
               s2)
  | _, _ => (HResult.err 400 "Invalid request data", s)

/-- `createTransaction` reaches the `$transaction` block: the request is
well-formed, the user exists, the batch book load matched every item
line, and every item passed the stock check. -/
def reachesTx (s : Store) (uid : String) (items : List TransactionItem) : Bool :=
  !uid.isEmpty && !items.isEmpty &&
  (s.users.find? (fun u => u.id == uid)).isSome &&
  ((booksFor s items).length == items.length) &&
  (checkItems (booksFor s items) items).isNone

-- Concrete sanity data -----------------------------------------------------

/-- A small concrete store used by witnesses: one user, one genre, two
active books and one soft-deleted book. -/
def demoStore : Store :=
  { users := [⟨"u1"⟩],
    genres := [⟨"g1", "Systems", none⟩],
    books :=
      [⟨"b1", "TAPL", "Pierce", "MIT", "types", 2002, 50, 5, "g1", none⟩,
       ⟨"b2", "SF", "Pierce", "UPenn", "coq", 2018, 30, 2, "g1", none⟩,
       ⟨"b3", "Old", "Gone", "Dust", "", 1990, 10, 1, "g1", some 7⟩],
    orders := [],
    orderItems := [] }

/-- Oracle under which no transaction step fails. -/
def noFail : Nat → Bool := fun _ => false

/-- Oracle under which the very first transaction step fails. -/
def failAt0 : Nat → Bool := fun n => n == 0

example :
    (createTransaction demoStore ⟨some "u1", some [⟨"b1", 2⟩]⟩ "o1" noFail).1 =
      HResult.ok 201 "Transaction created successfully"
        [("transaction_id", JValue.jstr "o1"),
         ("total_quantity", JValue.jint 2),
         ("total_price", JValue.jint 100)] := by decide

example :
    (createTransaction demoStore ⟨some "u1", some [⟨"b1", 2⟩]⟩ "o1" failAt0) =
      (HResult.err 500 "Internal server error", demoStore) := by decide

example :
    (createTransaction demoStore ⟨some "u1", some [⟨"b1", 9⟩]⟩ "o1" noFail) =
      (HResult.err 400 "Insufficient stock for book: TAPL", demoStore) := by decide

example :
    (createTransaction demoStore ⟨some "u1", some [⟨"b1", 3⟩, ⟨"b1", 3⟩]⟩ "o1" noFail) =
      (HResult.err 404 "One or more books not found", demoStore) := by decide

-- Book controller ----------------------------------------------------------

/-- Body of `POST /books`; absent fields are `none`. -/
structure CreateBookRequest where
  title : Option String
  writer : Option String
  publisher : Option String
  description : Option String
  publication_year : Option Int
  price : Option Int
  stock_quantity : Option Int
  genre_id : Option String
deriving Repr, DecidableEq

/-- JavaScript falsiness of an optional string field (`!title`): absent
or the empty string. -/
def falsyS : Option String → Bool
  | none => true
  | some s => s.isEmpty

/-- JavaScript falsiness of an optional numeric field (`!price`): absent
or zero. -/
def falsyI : Option Int → Bool
  | none => true
  | some n => n == 0

/-- `createBook` (`src/controllers/bookController.ts`, lines 9–127), the
"create or restore" handler.  `newId` stands for the database-generated
id used when a fresh row is inserted.  The `title` column carries a
unique constraint in the schema (the handler's `catch` inspects Prisma's
`P2002` unique-violation code for the title race), so `findFirst` by
title is deterministic on schema-valid stores. -/
def createBook (s : Store) (req : CreateBookRequest) (newId : String) :
    HResult × Store :=
  if falsyS req.title || falsyS req.writer || falsyS req.publisher ||
      falsyI req.publication_year || falsyI req.price ||
      req.stock_quantity == none || falsyS req.genre_id then
    (HResult.err 400 "Missing required fields", s)
  else
    match req.title, req.writer, req.publisher, req.publication_year,
        req.price, req.stock_quantity, req.genre_id with
    | some t, some w, some pbl, some y, some pr, some q, some gid =>
      match s.genres.find? (fun g => g.id == gid && g.deleted_at == none) with
      | none => (HResult.err 404 "Genre not found", s)
      | some _ =>
        match s.books.find? (fun b => b.title == t) with
        | some existing =>
          if existing.deleted_at == none then
            (HResult.err 400 "Book with this title already exists", s)
          else
            (HResult.ok 200 "Book restored and updated successfully"
              [("id", JValue.jstr existing.id), ("title", JValue.jstr existing.title)],
             { s with books := s.books.map (fun b =>
                 if b.id == existing.id then
                   { b with deleted_at := none, writer := w, publisher := pbl,
                            description := req.description.getD "",
                            publication_year := y, price := pr,
                            stock_quantity := q, genre_id := gid }
                 else b) })
        | none =>
          (HResult.ok 201 "Book added successfully"
            [("id", JValue.jstr newId), ("title", JValue.jstr t)],
           { s with books := s.books ++
               [⟨newId, t, w, pbl, req.description.getD "", y, pr, q, gid, none⟩] })
    | _, _, _, _, _, _, _ => (HResult.err 400 "Missing required fields", s)

/-- Body of `PATCH /books/:id`; absent fields are `none`. -/
structure UpdateBookRequest where
  description : Option String
  price : Option Int
  stock_quantity : Option Int
deriving Repr, DecidableEq

/-- `updateBook` (`src/controllers/bookController.ts`, lines 352–400):
look up the non-deleted book, 404 if absent; build the update object
from the three updatable fields, 400 if empty; otherwise update the
row. -/
def updateBook (s : Store) (book_id : String) (req : UpdateBookRequest) :
    HResult × Store :=
  match s.books.find? (fun b => b.id == book_id && b.deleted_at == none) with
  | none => (HResult.err 404 "Book not found", s)
  | some existing =>
    if req.description == none && req.price == none && req.stock_quantity == none then
      (HResult.err 400 "No fields to update", s)
    else
      (HResult.ok 200 "Book updated successfully"
        [("id", JValue.jstr existing.id), ("title", JValue.jstr existing.title)],
       { s with books := s.books.map (fun b =>
           if b.id == book_id then
             { b with description := req.description.getD b.description,
                      price := req.price.getD b.price,
                      stock_quantity := req.stock_quantity.getD b.stock_quantity }
           else b) })

example :
    (createBook demoStore
        ⟨some "Old", some "W", some "P", some "d", some 2020, some 9, some 4, some "g1"⟩
        "b9").1 =
      HResult.ok 200 "Book restored and updated successfully"
        [("id", JValue.jstr "b3"), ("title", JValue.jstr "Old")] := by decide

example :
    (createBook demoStore
        ⟨some "TAPL", some "W", some "P", some "d", some 2020, some 9, some 4, some "g1"⟩
        "b9") =
      (HResult.err 400 "Book with this title already exists", demoStore) := by decide

example :
    ((updateBook demoStore "b1" ⟨none, none, some (-1)⟩).2.books.map
      (fun b => b.stock_quantity)) = [-1, 2, 1] := by decide

-- Pagination helper --------------------------------------------------------

/-- JavaScript's `parseInt(str)` restricted to decimal notation: skip
leading whitespace, read an optional sign and then a maximal run of
decimal digits; `none` stands for `NaN` (no digits found). -/
def parseIntJS (str : String) : Option Int :=
  let cs := str.toList.dropWhile (fun c => c == ' ' || c == '\t' || c == '\n' || c == '\r')
  let sgn : Int := if cs.head? == some '-' then -1 else 1
  let cs2 := if cs.head? == some '-' || cs.head? == some '+' then cs.tail else cs
  let ds := cs2.takeWhile Char.isDigit
  if ds.isEmpty then none
  else some (sgn * (ds.foldl (fun a c => a * 10 + (c.toNat - 48)) 0 : Nat))

/-- Values returned by `PaginationHelper.getPaginationParams`; `none`
stands for JavaScript's `NaN` (it propagates through `Math.max`,
`Math.min` and arithmetic). -/
structure PaginationParams where
  page : Option Int
  limit : Option Int
  skip : Option Int
deriving Repr, DecidableEq

/-- `query.page || '1'`: an absent or empty query string falls back to
the default. -/
def jsOrDefault (q : Option String) (d : String) : String :=
  match q with
  | none => d
  | some s => if s.isEmpty then d else s

/-- `PaginationHelper.getPaginationParams` (`src/utils/pagination.ts`):
`page = Math.max(1, parseInt(query.page || '1'))`,
`limit = Math.min(100, Math.max(1, parseInt(query.limit || '10')))`,
`skip = (page - 1) * limit`. -/
def getPaginationParams (pageQ limitQ : Option String) : PaginationParams :=
  let page := (parseIntJS (jsOrDefault pageQ "1")).map (fun n => max 1 n)
  let limit := (parseIntJS (jsOrDefault limitQ "10")).map (fun n => min 100 (max 1 n))
  let skip :=
    match page, limit with
    | some p, some l => some ((p - 1) * l)
    | _, _ => none
  ⟨page, limit, skip⟩

example : getPaginationParams none none = ⟨some 1, some 10, some 0⟩ := by decide
example : getPaginationParams (some "3") (some "200") = ⟨some 3, some 100, some 200⟩ := by decide
example : (getPaginationParams (some "abc") none).page = none := by decide

-- Response helper ----------------------------------------------------------

namespace ResponseHelper

/-- `ResponseHelper.error` (`src/utils/response.ts`, the `success`-flag
variant): status code plus the JSON body `{ success: false, message }`,
with no `data` key. -/
def error (message : String) (statusCode : Nat) : Nat × List (String × JValue) :=
  (statusCode, [("success", JValue.jbool false), ("message", JValue.jstr message)])

end ResponseHelper

-- Transaction statistics ---------------------------------------------------

/-- Payload of `GET /transactions/statistics`. -/
structure Statistics where
  total_transactions : Nat
  average_transaction_amount : Int
  most_book_sales_genre : String
  fewest_book_sales_genre : String
deriving Repr, DecidableEq

/-- `Math.round(a / b)` for integers with `b > 0`: round half up, i.e.
`⌊a/b + 1/2⌋ = ⌊(2a + b) / (2b)⌋` with floor division. -/
def mathRound (a b : Int) : Int :=
  Int.fdiv (2 * a + b) (2 * b)

/-- Keys in first-encounter order, as Prisma `groupBy` keys are folded
into the `genreSales` object. -/
def distinctKeys (l : List String) : List String :=
  l.foldl (fun acc x => if acc.contains x then acc else acc ++ [x]) []

/-- `_sum.quantity` of the `orderItem.groupBy({ by: ['book_id'] })` group
of one book id. -/
def sumQtyFor (ois : List OrderItem) (bid : String) : Int :=
  (ois.filter (fun oi => oi.book_id == bid)).foldl (fun a oi => a + oi.quantity) 0

/-- Accumulate one group's quantity under its genre name, mirroring
`genreSales[genreName] = (genreSales[genreName] || 0) + (stat._sum.quantity || 0)`
on a JavaScript object kept in insertion order. -/
def accumGenre (acc : List (String × Int)) (name : String) (q : Int) :
    List (String × Int) :=
  if (acc.find? (fun p => p.1 == name)).isSome then
    acc.map (fun p => if p.1 == name then (p.1, p.2 + q) else p)
  else acc ++ [(name, q)]

/-- The `genreSales` object of `getTransactionStatistics`: per-book sold
quantities grouped by book id, mapped through each book's genre (groups
whose book or genre is missing are skipped, per the `if (book && book.genre)`
guard). -/
def genreSales (s : Store) : List (String × Int) :=
  (distinctKeys (s.orderItems.map (fun oi => oi.book_id))).foldl
    (fun acc bid =>
      match s.books.find? (fun b => b.id == bid) with
      | none => acc
      | some b =>
        match s.genres.find? (fun g => g.id == b.genre_id) with
        | none => acc
        | some g => accumGenre acc g.name (sumQtyFor s.orderItems bid))
    []

/-- The extreme-finding loop of `getTransactionStatistics` (lines
326–342): fold over `Object.entries(genreSales)` with
`maxSales = 0`, `minSales = Infinity` (`none` models `Infinity`);
returns `(mostSalesGenre, fewestSalesGenre)`. -/
def genreExtremes (sales : List (String × Int)) : String × String :=
  let st := sales.foldl
    (fun (st : String × Int × String × Option Int) p =>
      let st1 := if p.2 > st.2.1 then (p.1, p.2, st.2.2.1, st.2.2.2) else st
      match st1.2.2.2 with
      | none => (st1.1, st1.2.1, p.1, some p.2)
      | some m => if p.2 < m then (st1.1, st1.2.1, p.1, some p.2) else st1)
    ("", 0, "", none)
  (st.1, st.2.2.1)

/-- `getTransactionStatistics` (`src/controllers/transactionController.ts`,
lines 273–360): total order count, rounded average order amount
(guarded against division by zero), and the genres with the most and
fewest units sold, with `'N/A'` substituted for the empty string. -/
def getTransactionStatistics (s : Store) : Statistics :=
  let totalTransactions := s.orders.length
  let totalAmount := s.orders.foldl
    (fun acc o =>
      acc + (s.orderItems.filter (fun oi => oi.order_id == o.id)).foldl
        (fun a oi =>
          a + (match s.books.find? (fun b => b.id == oi.book_id) with
               | some b => b.price * oi.quantity
               | none => 0))
        0)
    0
  let averageTransactionAmount :=
    if totalTransactions > 0 then mathRound totalAmount totalTransactions else 0
  let ext := genreExtremes (genreSales s)
  { total_transactions := totalTransactions,
    average_transaction_amount := averageTransactionAmount,
    most_book_sales_genre := if ext.1.isEmpty then "N/A" else ext.1,
    fewest_book_sales_genre := if ext.2.isEmpty then "N/A" else ext.2 }

example : getTransactionStatistics demoStore = ⟨0, 0, "N/A", "N/A"⟩ := by decide

example :
    getTransactionStatistics
      { demoStore with
        orders := [⟨"o1", "u1"⟩],
        orderItems := [⟨"o1", "b1", 2⟩] } = ⟨1, 100, "Systems", "Systems"⟩ := by decide

-- ===========================================================================
-- Claim statements and proofs
-- ===========================================================================

/-- Claim C6 as stated: for every query-parameter pair the helper yields a
(never-NaN) page ≥ 1 defaulting to 1, a limit in [1,100] defaulting to
10, and `skip = (page-1)*limit`. -/
def claimC6Stated : Prop :=
  ∀ pageQ limitQ : Option String, ∃ p l k : Int,
    getPaginationParams pageQ limitQ = ⟨some p, some l, some k⟩ ∧
    1 ≤ p ∧ 1 ≤ l ∧ l ≤ 100 ∧ k = (p - 1) * l ∧
    (pageQ = none → p = 1) ∧ (limitQ = none → l = 10)

/-- C6 (counterexample): the claim fails for the query pair
`page="abc"` (no limit): `parseInt("abc")` is `NaN`, so the computed
page is `NaN`, not a value ≥ 1. -/
theorem claimC6_counterexample : ¬ claimC6Stated := by
  intro h
  obtain ⟨p, l, k, heq, -⟩ := h (some "abc") none
  have h2 : (getPaginationParams (some "abc") none).page = none := by decide
  rw [heq] at h2
  exact Option.noConfusion h2

/-- C6 (amended): whenever the page and limit queries parse to numbers
(in particular whenever they are absent or empty, when the defaults "1"
and "10" are parsed), page is floored to ≥ 1, limit is clamped into
[1,100] and skip = (page-1)·limit; an absent page yields page 1 and an
absent limit yields limit 10.  A non-numeric page or limit instead
yields NaN for that field and for skip. -/
theorem claimC6_amended :
    (∀ pageQ limitQ : Option String, ∀ p l : Int,
        (getPaginationParams pageQ limitQ).page = some p →
        (getPaginationParams pageQ limitQ).limit = some l →
        1 ≤ p ∧ 1 ≤ l ∧ l ≤ 100 ∧
          (getPaginationParams pageQ limitQ).skip = some ((p - 1) * l)) ∧
    (∀ limitQ, (getPaginationParams none limitQ).page = some 1) ∧
    (∀ pageQ, (getPaginationParams pageQ none).limit = some 10) := by
  refine ⟨?_, ?_, ?_⟩
  · intro pageQ limitQ p l hp hl
    simp only [getPaginationParams] at hp hl ⊢
    obtain ⟨n, hn, hpn⟩ := Option.map_eq_some'.mp hp
    obtain ⟨m, hm, hlm⟩ := Option.map_eq_some'.mp hl
    refine ⟨?_, ?_, ?_, ?_⟩
    · rw [← hpn]; exact le_max_left 1 n
    · rw [← hlm]; exact le_min (by norm_num) (le_max_left 1 m)
    · rw [← hlm]; exact min_le_left 100 (max 1 m)
    · rw [hn, hm]; simp [hpn, hlm]
  · intro limitQ
    simp only [getPaginationParams, jsOrDefault]
    decide
  · intro pageQ
    simp only [getPaginationParams]
    cases pageQ with
    | none => decide
    | some s =>
      simp only [jsOrDefault]
      by_cases hs : s.isEmpty <;> simp [hs] <;> decide

/-- Witness for C6 (amended) at concrete inputs `page="3"`, `limit="200"`. -/
theorem claimC6_amended_witness :
    ((1:Int) ≤ 3 ∧ (1:Int) ≤ 100 ∧ (100:Int) ≤ 100 ∧
      (getPaginationParams (some "3") (some "200")).skip = some ((3 - 1) * 100)) ∧
    (getPaginationParams none none).page = some 1 ∧
    (getPaginationParams (some "3") none).limit = some 10 :=
  ⟨claimC6_amended.1 (some "3") (some "200") 3 100 (by decide) (by decide),
   claimC6_amended.2.1 none, claimC6_amended.2.2 (some "3")⟩

/-- C7: over an empty order set (with referential integrity: every order
item belongs to some order), the statistics are total 0, average 0, and
"N/A" for both genre extremes; the computation is total, so no
division-by-zero or empty-aggregate failure can occur. -/
theorem claimC7_empty_statistics (s : Store) (h : s.orders = [])
    (hri : ∀ oi ∈ s.orderItems, ∃ o ∈ s.orders, oi.order_id = o.id) :
    getTransactionStatistics s =
      { total_transactions := 0, average_transaction_amount := 0,
        most_book_sales_genre := "N/A", fewest_book_sales_genre := "N/A" } := by
  have hoi : s.orderItems = [] := by
    cases hx : s.orderItems with
    | nil => rfl
    | cons a l =>
      exfalso
      obtain ⟨o, ho, -⟩ := hri a (by rw [hx]; exact List.mem_cons_self a l)
      rw [h] at ho
      exact absurd ho (List.not_mem_nil o)
  simp [getTransactionStatistics, genreSales, distinctKeys, genreExtremes, h, hoi]
  decide

/-- Witness for C7 on a concrete store with books but no orders. -/
theorem claimC7_witness :
    getTransactionStatistics demoStore =
      { total_transactions := 0, average_transaction_amount := 0,
        most_book_sales_genre := "N/A", fewest_book_sales_genre := "N/A" } :=
  claimC7_empty_statistics demoStore rfl (by decide)

/-- C8: every failure response built by the response formatter carries
the uniform envelope: `success` is `false`, `message` is the supplied
message, and there is no `data` field. -/
theorem claimC8_error_envelope (m : String) (c : Nat) :
    (ResponseHelper.error m c).1 = c ∧
    (ResponseHelper.error m c).2.lookup "success" = some (JValue.jbool false) ∧
    (ResponseHelper.error m c).2.lookup "message" = some (JValue.jstr m) ∧
    (ResponseHelper.error m c).2.lookup "data" = none := by
  refine ⟨rfl, rfl, ?_, ?_⟩ <;>
    simp [ResponseHelper.error, List.lookup]

/-- If the per-item write sequence of the transaction block succeeds, the
final store is the initial one with the order items appended and the
per-item stock decrements folded over the books; no other table
changes. -/
theorem applyItems_ok (orderId : String) (oracle : Nat → Bool) :
    ∀ (items : List TransactionItem) (s : Store) (n : Nat) (s2 : Store),
      applyItems orderId oracle items s n = Except.ok s2 →
      s2.users = s.users ∧ s2.genres = s.genres ∧ s2.orders = s.orders ∧
      s2.orderItems = s.orderItems ++
        items.map (fun i => OrderItem.mk orderId i.book_id i.quantity) ∧
      s2.books = items.foldl (fun bs i => decStock bs i.book_id i.quantity) s.books := by
  intro items
  induction items with
  | nil =>
    intro s n s2 h
    simp only [applyItems, Except.ok.injEq] at h
    subst h
    simp
  | cons it rest ih =>
    intro s n s2 h
    simp only [applyItems] at h
    by_cases h0 : oracle n = true
    · simp [h0] at h
    · by_cases h1 : oracle (n + 1) = true
      · simp [h0, h1] at h
      · simp only [h0, h1, if_false, Bool.false_eq_true] at h
        obtain ⟨hu, hg, ho, hoi, hb⟩ := ih _ (n + 2) s2 h
        refine ⟨hu, hg, ho, ?_, ?_⟩
        · rw [hoi]; simp
        · rw [hb]; rfl

/-- If the transaction block succeeds, the final store is the initial one
with one `Order` row appended, one `OrderItem` row appended per line,
and each line's stock decrement applied. -/
theorem txBody_ok (s : Store) (uid orderId : String)
    (items : List TransactionItem) (oracle : Nat → Bool) (s2 : Store) :
    txBody s uid orderId items oracle = Except.ok s2 →
    s2.users = s.users ∧ s2.genres = s.genres ∧
    s2.orders = s.orders ++ [Order.mk orderId uid] ∧
    s2.orderItems = s.orderItems ++
      items.map (fun i => OrderItem.mk orderId i.book_id i.quantity) ∧
    s2.books = items.foldl (fun bs i => decStock bs i.book_id i.quantity) s.books := by
  intro h
  unfold txBody at h
  by_cases h0 : oracle 0 = true
  · simp [h0] at h
  · simp only [h0, if_false, Bool.false_eq_true] at h
    simpa using applyItems_ok orderId oracle items _ 1 s2 h

/-- In a list of books with pairwise-distinct ids, two members with the
same id are the same row. -/
theorem book_id_unique {l : List Book} (h : (l.map (fun b => b.id)).Nodup)
    {a b : Book} (ha : a ∈ l) (hb : b ∈ l) (hid : a.id = b.id) : a = b :=
  List.inj_on_of_nodup_map h ha hb hid

/-- Membership in the batch book load. -/
theorem mem_booksFor {s : Store} {items : List TransactionItem} {b : Book} :
    b ∈ booksFor s items ↔
      b ∈ s.books ∧ b.id ∈ items.map (fun i => i.book_id) ∧ b.deleted_at = none := by
  simp [booksFor, List.mem_filter, and_assoc]

/-- The batch book load has pairwise-distinct ids in a well-formed
store. -/
theorem booksFor_nodup (s : Store) (items : List TransactionItem)
    (hwf : storeWF s) : ((booksFor s items).map (fun b => b.id)).Nodup :=
  hwf.sublist (List.Sublist.map _ (List.filter_sublist s.books))

/-- When the batch load matched as many rows as there are item lines, the
requested ids are pairwise distinct and every requested id was matched
by some loaded row. -/
theorem batch_complete (s : Store) (items : List TransactionItem)
    (hwf : storeWF s)
    (hlen : (booksFor s items).length = items.length) :
    (items.map (fun i => i.book_id)).Nodup ∧
    ∀ bid ∈ items.map (fun i => i.book_id), ∃ b ∈ booksFor s items, b.id = bid := by
  set ids := items.map (fun i => i.book_id) with hids
  set L := (booksFor s items).map (fun b => b.id) with hL
  have hLnodup : L.Nodup := booksFor_nodup s items hwf
  have hLsub : L ⊆ ids := by
    intro x hx
    obtain ⟨b, hb, rfl⟩ := List.mem_map.mp hx
    exact (mem_booksFor.mp hb).2.1
  have hLlen : L.length = ids.length := by
    simp only [hL, hids, List.length_map]
    exact hlen
  have hsubF : L.toFinset ⊆ ids.toFinset := by
    intro x hx
    exact List.mem_toFinset.mpr (hLsub (List.mem_toFinset.mp hx))
  have hcard1 : L.toFinset.card = L.length := List.toFinset_card_of_nodup hLnodup
  have hcard2 : ids.toFinset.card ≤ ids.length := List.toFinset_card_le ids
  have hcard3 : ids.length ≤ ids.toFinset.card := by
    calc ids.length = L.length := hLlen.symm
    _ = L.toFinset.card := hcard1.symm
    _ ≤ ids.toFinset.card := Finset.card_le_card hsubF
  have hidsNodup : ids.Nodup := by
    have hdlen : ids.dedup.length = ids.length := by
      have := List.card_toFinset ids
      omega
    exact List.dedup_eq_self.mp
      (List.Sublist.eq_of_length (List.dedup_sublist ids) hdlen)
  have hFeq : L.toFinset = ids.toFinset :=
    Finset.eq_of_subset_of_card_le hsubF (by omega)
  refine ⟨hidsNodup, ?_⟩
  intro bid hbid
  have : bid ∈ L.toFinset := hFeq ▸ List.mem_toFinset.mpr hbid
  obtain ⟨b, hb, rfl⟩ := List.mem_map.mp (List.mem_toFinset.mp this)
  exact ⟨b, hb, rfl⟩

/-- Repeated book ids in the item list always fail the batch length
check: the matched rows are fewer than the item lines. -/
theorem batch_fails_of_dup (s : Store) (items : List TransactionItem)
    (hwf : storeWF s) (hdup : ¬ (items.map (fun i => i.book_id)).Nodup) :
    (booksFor s items).length ≠ items.length := fun hlen =>
  hdup (batch_complete s items hwf hlen).1

/-- A requested id matched by no non-deleted book makes the batch length
check fail. -/
theorem batch_fails_of_missing (s : Store) (items : List TransactionItem)
    (hwf : storeWF s) {i : TransactionItem} (hi : i ∈ items)
    (hmiss : ∀ b ∈ s.books, ¬(b.id = i.book_id ∧ b.deleted_at = none)) :
    (booksFor s items).length ≠ items.length := by
  intro hlen
  obtain ⟨-, hall⟩ := batch_complete s items hwf hlen
  obtain ⟨b, hb, hbid⟩ := hall i.book_id (List.mem_map.mpr ⟨i, hi, rfl⟩)
  obtain ⟨hmem, -, hdel⟩ := mem_booksFor.mp hb
  exact hmiss b hmem ⟨hbid, hdel⟩

/-- If the validation loop fell through, every item's book is found in
the batch list and its stock covers the requested quantity. -/
theorem checkItems_none_spec (books : List Book) :
    ∀ (items : List TransactionItem), checkItems books items = none →
      ∀ it ∈ items, ∃ b, books.find? (fun b => b.id == it.book_id) = some b ∧
        it.quantity ≤ b.stock_quantity := by
  intro items
  induction items with
  | nil => intro h it hit; exact absurd hit (List.not_mem_nil it)
  | cons hd rest ih =>
    intro h it hit
    simp only [checkItems] at h
    cases hfind : books.find? (fun b => b.id == hd.book_id) with
    | none => rw [hfind] at h; exact Option.noConfusion h
    | some b =>
      rw [hfind] at h
      have h2 : (if b.stock_quantity < hd.quantity then
          some (HResult.err 400 ("Insufficient stock for book: " ++ b.title))
        else checkItems books rest) = none := h
      by_cases hstock : b.stock_quantity < hd.quantity
      · rw [if_pos hstock] at h2; exact Option.noConfusion h2
      · rw [if_neg hstock] at h2
        rcases List.mem_cons.mp hit with rfl | hmem
        · exact ⟨b, hfind, le_of_not_lt hstock⟩
        · exact ih h2 it hmem

/-- The totals loop, when every item's book is found: starting from any
accumulator it adds the sum of quantities and the sum of
price-times-quantity (prices read from the batch list). -/
theorem computeTotals_spec (books : List Book) :
    ∀ (items : List TransactionItem),
      (∀ it ∈ items, ∃ b, books.find? (fun b => b.id == it.book_id) = some b ∧
        it.quantity ≤ b.stock_quantity) →
      computeTotals books items =
        ((items.map (fun i => i.quantity)).sum,
         (items.map (fun it =>
            (((books.find? (fun b => b.id == it.book_id)).map
                (fun b => b.price)).getD 0) * it.quantity)).sum) := by
  have gen : ∀ (items : List TransactionItem) (acc : Int × Int),
      (∀ it ∈ items, ∃ b, books.find? (fun b => b.id == it.book_id) = some b ∧
        it.quantity ≤ b.stock_quantity) →
      items.foldl
        (fun acc it =>
          match books.find? (fun b => b.id == it.book_id) with
          | some b => (acc.1 + it.quantity, acc.2 + b.price * it.quantity)
          | none => acc)
        acc =
        (acc.1 + (items.map (fun i => i.quantity)).sum,
         acc.2 + (items.map (fun it =>
            (((books.find? (fun b => b.id == it.book_id)).map
                (fun b => b.price)).getD 0) * it.quantity)).sum) := by
    intro items
    induction items with
    | nil => intro acc h; simp
    | cons hd rest ih =>
      intro acc h
      obtain ⟨b, hb, -⟩ := h hd (List.mem_cons_self hd rest)
      simp only [List.foldl_cons, hb]
      rw [ih _ (fun it hit => h it (List.mem_cons_of_mem hd hit))]
      simp only [hb, Option.map_some', Option.getD_some, List.map_cons,
        List.sum_cons, Prod.mk.injEq]
      constructor <;> ring
  intro items h
  have := gen items (0, 0) h
  simpa [computeTotals] using this

/-- A non-`none` result of the validation loop is an error envelope. -/
theorem checkItems_err (books : List Book) :
    ∀ (items : List TransactionItem) {r : HResult},
      checkItems books items = some r → ∃ c m, r = HResult.err c m := by
  intro items
  induction items with
  | nil => intro r h; exact Option.noConfusion h
  | cons hd rest ih =>
    intro r h
    simp only [checkItems] at h
    cases hfind : books.find? (fun b => b.id == hd.book_id) with
    | none =>
      rw [hfind] at h
      exact ⟨404, "Book " ++ hd.book_id ++ " not found", (Option.some.injEq _ _ ▸ h).symm⟩
    | some b =>
      rw [hfind] at h
      have h2 : (if b.stock_quantity < hd.quantity then
          some (HResult.err 400 ("Insufficient stock for book: " ++ b.title))
        else checkItems books rest) = some r := h
      by_cases hstock : b.stock_quantity < hd.quantity
      · rw [if_pos hstock] at h2
        exact ⟨400, "Insufficient stock for book: " ++ b.title,
          (Option.some.injEq _ _ ▸ h2).symm⟩
      · rw [if_neg hstock] at h2
        exact ih h2

/-- Exhaustive outcome analysis of `createTransaction`: either the store
is returned unchanged (any validation failure or transaction rollback),
or the request was fully validated, the transaction block succeeded, and
the handler returned 201 with the computed totals. -/
theorem createTransaction_cases (s : Store) (req : CreateTransactionRequest)
    (orderId : String) (oracle : Nat → Bool) :
    (∃ c m, createTransaction s req orderId oracle = (HResult.err c m, s)) ∨
    (∃ uid items s2,
      req = ⟨some uid, some items⟩ ∧
      (booksFor s items).length = items.length ∧
      checkItems (booksFor s items) items = none ∧
      txBody s uid orderId items oracle = Except.ok s2 ∧
      createTransaction s req orderId oracle =
        (HResult.ok 201 "Transaction created successfully"
          [("transaction_id", JValue.jstr orderId),
           ("total_quantity", JValue.jint (computeTotals (booksFor s items) items).1),
           ("total_price", JValue.jint (computeTotals (booksFor s items) items).2)],
         s2)) := by
  obtain ⟨uo, io⟩ := req
  cases uo with
  | none => exact Or.inl ⟨400, "Invalid request data", by simp [createTransaction]⟩
  | some uid =>
    cases io with
    | none => exact Or.inl ⟨400, "Invalid request data", by simp [createTransaction]⟩
    | some items =>
      by_cases hv : (uid.isEmpty || items.isEmpty) = true
      · exact Or.inl ⟨400, "Invalid request data", by simp [createTransaction, hv]⟩
      · cases hfind : s.users.find? (fun u => u.id == uid) with
        | none =>
          exact Or.inl ⟨404, "User not found", by simp [createTransaction, hv, hfind]⟩
        | some u =>
          by_cases hlen : (booksFor s items).length = items.length
          · cases hchk : checkItems (booksFor s items) items with
            | some r =>
              left
              have hr := checkItems_err (booksFor s items) items hchk
              obtain ⟨c, m, rfl⟩ := hr
              exact ⟨c, m, by simp [createTransaction, hv, hfind, hlen, hchk]⟩
            | none =>
              cases htx : txBody s uid orderId items oracle with
              | error e =>
                exact Or.inl ⟨500, "Internal server error",
                  by simp [createTransaction, hv, hfind, hlen, hchk, htx]⟩
              | ok s2 =>
                right
                exact ⟨uid, items, s2, rfl, hlen, hchk, htx, by
                  simp [createTransaction, hv, hfind, hlen, hchk, htx]⟩
          · left
            have hbne : ((booksFor s items).length != items.length) = true := by
              simpa using hlen
            exact ⟨404, "One or more books not found",
              by simp [createTransaction, hv, hfind, hbne]⟩

/-- C1: once validation succeeds (the request reaches the `$transaction`
block), the order row, the order-item rows and the stock decrements are
all-or-nothing: if any step of the block fails the handler returns the
generic 500 and the store is exactly the pre-request store; if every
step succeeds the returned store contains the new order, all its items,
and all its stock decrements. -/
theorem claimC1_atomic_transaction (s : Store) (uid : String)
    (items : List TransactionItem) (orderId : String) (oracle : Nat → Bool)
    (h : reachesTx s uid items = true) :
    (txBody s uid orderId items oracle = Except.error () →
      createTransaction s ⟨some uid, some items⟩ orderId oracle =
        (HResult.err 500 "Internal server error", s)) ∧
    (∀ s2, txBody s uid orderId items oracle = Except.ok s2 →
      (createTransaction s ⟨some uid, some items⟩ orderId oracle).2 = s2 ∧
      s2.users = s.users ∧ s2.genres = s.genres ∧
      s2.orders = s.orders ++ [Order.mk orderId uid] ∧
      s2.orderItems = s.orderItems ++
        items.map (fun i => OrderItem.mk orderId i.book_id i.quantity) ∧
      s2.books = items.foldl (fun bs i => decStock bs i.book_id i.quantity) s.books) := by
  simp only [reachesTx, Bool.and_eq_true, Bool.not_eq_true',
    Option.isSome_iff_exists, Option.isNone_iff_eq_none, beq_iff_eq] at h
  obtain ⟨⟨⟨⟨h1, h2⟩, u, hu⟩, hlen⟩, hchk⟩ := h
  constructor
  · intro htx
    simp [createTransaction, h1, h2, hu, hlen, hchk, htx]
  · intro s2 htx
    have hshape := txBody_ok s uid orderId items oracle s2 htx
    refine ⟨?_, hshape⟩
    simp [createTransaction, h1, h2, hu, hlen, hchk, htx]

/-- Witness for C1: a concrete valid one-line order whose first
transaction step fails yields a 500 with the store unchanged. -/
theorem claimC1_witness :
    reachesTx demoStore "u1" [⟨"b1", 2⟩] = true ∧
    txBody demoStore "u1" "o1" [⟨"b1", 2⟩] failAt0 = Except.error () ∧
    createTransaction demoStore ⟨some "u1", some [⟨"b1", 2⟩]⟩ "o1" failAt0 =
      (HResult.err 500 "Internal server error", demoStore) :=
  ⟨by decide, rfl,
   (claimC1_atomic_transaction demoStore "u1" [⟨"b1", 2⟩] "o1" failAt0 (by decide)).1
     rfl⟩

/-- Sum of the requested quantities of an order request. -/
def sumQuantities (items : List TransactionItem) : Int :=
  (items.map (fun i => i.quantity)).sum

/-- The current stored price of the non-deleted book with the given id
(0 if there is none). -/
def bookPriceIn (s : Store) (bid : String) : Int :=
  ((s.books.find? (fun b => b.id == bid && b.deleted_at == none)).map
    (fun b => b.price)).getD 0

/-- Sum over the order's lines of current stored price times requested
quantity. -/
def orderTotalPrice (s : Store) (items : List TransactionItem) : Int :=
  (items.map (fun it => bookPriceIn s it.book_id * it.quantity)).sum

/-- A book found in the batch load is the book the store's non-deleted
lookup by id finds (ids are unique in a well-formed store). -/
theorem find_booksFor_eq (s : Store) (items : List TransactionItem)
    (hwf : storeWF s) {bid : String} {b : Book}
    (h : (booksFor s items).find? (fun b => b.id == bid) = some b) :
    s.books.find? (fun b2 => b2.id == bid && b2.deleted_at == none) = some b := by
  have hb : b ∈ booksFor s items := List.mem_of_find?_eq_some h
  have hbid : b.id = bid := by simpa using List.find?_some h
  obtain ⟨hmem, -, hdel⟩ := mem_booksFor.mp hb
  have hsome : (s.books.find? (fun b2 => b2.id == bid && b2.deleted_at == none)).isSome := by
    rw [List.find?_isSome]
    exact ⟨b, hmem, by simp [hbid, hdel]⟩
  obtain ⟨b2, hb2⟩ := Option.isSome_iff_exists.mp hsome
  have hmem2 : b2 ∈ s.books := List.mem_of_find?_eq_some hb2
  have hprop : b2.id = bid ∧ b2.deleted_at = none := by
    simpa using List.find?_some hb2
  rw [hb2, book_id_unique hwf hmem2 hmem (hprop.1.trans hbid.symm)]

/-- C4: every successful order creation responds 201 with the order id,
the total quantity equal to the sum of the requested quantities, and the
total price equal to the sum over lines of the book's current stored
price times the line's quantity. -/
theorem claimC4_success_totals (s : Store) (req : CreateTransactionRequest)
    (orderId : String) (oracle : Nat → Bool) (hwf : storeWF s)
    (st : Nat) (msg : String) (data : List (String × JValue)) (s2 : Store)
    (h : createTransaction s req orderId oracle = (HResult.ok st msg data, s2)) :
    st = 201 ∧ msg = "Transaction created successfully" ∧
    ∃ items, req.items = some items ∧
      data = [("transaction_id", JValue.jstr orderId),
              ("total_quantity", JValue.jint (sumQuantities items)),
              ("total_price", JValue.jint (orderTotalPrice s items))] := by
  rcases createTransaction_cases s req orderId oracle with ⟨c, m, heq⟩ |
    ⟨uid, items, s2x, hreq, hlen, hchk, htx, heq⟩
  · rw [heq] at h
    exact absurd (congrArg Prod.fst h) (by simp)
  · rw [heq] at h
    have hres := congrArg Prod.fst h
    simp only at hres
    have hfound := checkItems_none_spec (booksFor s items) items hchk
    have hct := computeTotals_spec (booksFor s items) items hfound
    have hprices :
        items.map (fun it =>
          (((booksFor s items).find? (fun b => b.id == it.book_id)).map
              (fun b => b.price)).getD 0 * it.quantity) =
        items.map (fun it => bookPriceIn s it.book_id * it.quantity) := by
      apply List.map_congr_left
      intro it hit
      obtain ⟨b, hbfind, -⟩ := hfound it hit
      rw [hbfind, bookPriceIn, find_booksFor_eq s items hwf hbfind]
    have hdata :
        computeTotals (booksFor s items) items =
          (sumQuantities items, orderTotalPrice s items) := by
      rw [hct, sumQuantities, orderTotalPrice, hprices]
    rw [hdata] at hres
    cases hres
    exact ⟨rfl, rfl, items, congrArg CreateTransactionRequest.items hreq, rfl⟩

/-- Witness for C4: the concrete successful one-line order. -/
theorem claimC4_witness :
    storeWF demoStore ∧
    (201 = 201 ∧ "Transaction created successfully" = "Transaction created successfully" ∧
      ∃ items, (CreateTransactionRequest.mk (some "u1") (some [⟨"b1", 2⟩])).items = some items ∧
        [("transaction_id", JValue.jstr "o1"),
         ("total_quantity", JValue.jint 2),
         ("total_price", JValue.jint 100)] =
          [("transaction_id", JValue.jstr "o1"),
           ("total_quantity", JValue.jint (sumQuantities items)),
           ("total_price", JValue.jint (orderTotalPrice demoStore items))]) :=
  ⟨by decide,
   claimC4_success_totals demoStore ⟨some "u1", some [⟨"b1", 2⟩]⟩ "o1" noFail
     (by decide) 201 "Transaction created successfully"
     [("transaction_id", JValue.jstr "o1"),
      ("total_quantity", JValue.jint 2),
      ("total_price", JValue.jint 100)]
     { demoStore with
        books :=
          [⟨"b1", "TAPL", "Pierce", "MIT", "types", 2002, 50, 3, "g1", none⟩,
           ⟨"b2", "SF", "Pierce", "UPenn", "coq", 2018, 30, 2, "g1", none⟩,
           ⟨"b3", "Old", "Gone", "Dust", "", 1990, 10, 1, "g1", some 7⟩],
        orders := [⟨"o1", "u1"⟩],
        orderItems := [⟨"o1", "b1", 2⟩] }
     (by decide)⟩


-- Stock nonnegativity -------------------------------------------------------

/-- Every book row of the store has nonnegative stock. -/
def nonnegStocks (s : Store) : Prop :=
  ∀ b ∈ s.books, 0 ≤ b.stock_quantity

instance (s : Store) : Decidable (nonnegStocks s) := by
  unfold nonnegStocks; infer_instance

/-- When the validation loop fell through, every store row whose id is
requested by some item has stock at least that item's quantity (the row
the loop checked is that same row, by id uniqueness). -/
theorem stock_check_store (s : Store) (items : List TransactionItem)
    (hwf : storeWF s) (hchk : checkItems (booksFor s items) items = none) :
    ∀ it ∈ items, ∀ b ∈ s.books, b.id = it.book_id →
      it.quantity ≤ b.stock_quantity := by
  intro it hit b hb hid
  obtain ⟨bb, hfind, hle⟩ := checkItems_none_spec (booksFor s items) items hchk it hit
  have hbbmem : bb ∈ booksFor s items := List.mem_of_find?_eq_some hfind
  have hbbid : bb.id = it.book_id := by simpa using List.find?_some hfind
  have : b = bb :=
    book_id_unique hwf hb (mem_booksFor.mp hbbmem).1 (hid.trans hbbid.symm)
  rw [this]
  exact hle

/-- Folding the per-line stock decrements over a book list with
pairwise-distinct requested ids keeps every stock nonnegative, provided
each line's quantity was bounded by its book's stock. -/
theorem foldl_decStock_nonneg :
    ∀ (items : List TransactionItem) (books : List Book),
      (∀ b ∈ books, 0 ≤ b.stock_quantity) →
      (items.map (fun i => i.book_id)).Nodup →
      (∀ it ∈ items, ∀ b ∈ books, b.id = it.book_id →
        it.quantity ≤ b.stock_quantity) →
      ∀ b ∈ items.foldl (fun bs i => decStock bs i.book_id i.quantity) books,
        0 ≤ b.stock_quantity := by
  intro items
  induction items with
  | nil => intro books hnn _ _ b hb; exact hnn b hb
  | cons it rest ih =>
    intro books hnn hnd hchk b hb
    simp only [List.foldl_cons] at hb
    simp only [List.map_cons, List.nodup_cons] at hnd
    refine ih (decStock books it.book_id it.quantity) ?_ hnd.2 ?_ b hb
    · intro b2 hb2
      obtain ⟨b0, hb0, rfl⟩ := List.mem_map.mp hb2
      by_cases hid : (b0.id == it.book_id) = true
      · have hle : it.quantity ≤ b0.stock_quantity :=
          hchk it (List.mem_cons_self it rest) b0 hb0 (by simpa using hid)
        simp only [hid, if_true]
        show 0 ≤ b0.stock_quantity - it.quantity
        omega
      · simp only [hid, if_false, Bool.false_eq_true]
        exact hnn b0 hb0
    · intro it2 hit2 b2 hb2 hid2
      obtain ⟨b0, hb0, rfl⟩ := List.mem_map.mp hb2
      have hitne : it2.book_id ≠ it.book_id := by
        intro hcontra
        exact hnd.1 (hcontra ▸ List.mem_map.mpr ⟨it2, hit2, rfl⟩)
      by_cases hid0 : (b0.id == it.book_id) = true
      · exfalso
        have hb2id : b0.id = it2.book_id := by
          simpa [hid0] using hid2
        exact hitne (hb2id ▸ (by simpa using hid0))
      · simp only [hid0, if_false, Bool.false_eq_true] at hid2 ⊢
        exact hchk it2 (List.mem_cons_of_mem it hit2) b0 hb0 hid2

/-- Exhaustive outcome analysis of `createBook`: an error with the store
unchanged, a restore of the soft-deleted row `existing` bearing the
requested title, or an insert of a fresh row. -/
theorem createBook_cases (s : Store) (req : CreateBookRequest) (newId : String) :
    (∃ c m, createBook s req newId = (HResult.err c m, s)) ∨
    (∃ t w pbl y pr q gid existing,
      req.title = some t ∧ req.writer = some w ∧ req.publisher = some pbl ∧
      req.publication_year = some y ∧ req.price = some pr ∧
      req.stock_quantity = some q ∧ req.genre_id = some gid ∧
      s.books.find? (fun b => b.title == t) = some existing ∧
      existing.deleted_at ≠ none ∧
      createBook s req newId =
        (HResult.ok 200 "Book restored and updated successfully"
           [("id", JValue.jstr existing.id), ("title", JValue.jstr existing.title)],
         { s with books := s.books.map (fun b =>
             if b.id == existing.id then
               { b with deleted_at := none, writer := w, publisher := pbl,
                        description := req.description.getD "",
                        publication_year := y, price := pr,
                        stock_quantity := q, genre_id := gid }
             else b) })) ∨
    (∃ t w pbl y pr q gid,
      req.title = some t ∧ req.writer = some w ∧ req.publisher = some pbl ∧
      req.publication_year = some y ∧ req.price = some pr ∧
      req.stock_quantity = some q ∧ req.genre_id = some gid ∧
      s.books.find? (fun b => b.title == t) = none ∧
      createBook s req newId =
        (HResult.ok 201 "Book added successfully"
           [("id", JValue.jstr newId), ("title", JValue.jstr t)],
         { s with books := s.books ++
             [⟨newId, t, w, pbl, req.description.getD "", y, pr, q, gid, none⟩] })) := by
  obtain ⟨t0, w0, p0, d0, y0, pr0, q0, g0⟩ := req
  by_cases hval : (falsyS t0 || falsyS w0 || falsyS p0 || falsyI y0 || falsyI pr0 ||
      (q0 == none) || falsyS g0) = true
  · exact Or.inl ⟨400, "Missing required fields", by simp [createBook, hval]⟩
  · cases t0 with
    | none => exact absurd (by simp [falsyS]) hval
    | some t =>
      cases w0 with
      | none => exact absurd (by simp [falsyS]) hval
      | some w =>
        cases p0 with
        | none => exact absurd (by simp [falsyS]) hval
        | some pbl =>
          cases y0 with
          | none => exact absurd (by simp [falsyI]) hval
          | some y =>
            cases pr0 with
            | none => exact absurd (by simp [falsyI]) hval
            | some pr =>
              cases q0 with
              | none => exact absurd (by simp) hval
              | some q =>
                cases g0 with
                | none => exact absurd (by simp [falsyS]) hval
                | some gid =>
                  cases hg : s.genres.find? (fun g => g.id == gid && g.deleted_at == none) with
                  | none =>
                    exact Or.inl ⟨404, "Genre not found",
                      by simp [createBook, hval, hg]; simp_all [falsyS, falsyI]⟩
                  | some g =>
                    cases hfind : s.books.find? (fun b => b.title == t) with
                    | some existing =>
                      by_cases hdel : (existing.deleted_at == none) = true
                      · exact Or.inl ⟨400, "Book with this title already exists",
                          by simp [createBook, hval, hg, hfind, hdel]
                             simp_all [falsyS, falsyI]⟩
                      · refine Or.inr (Or.inl ⟨t, w, pbl, y, pr, q, gid, existing,
                          rfl, rfl, rfl, rfl, rfl, rfl, rfl, hfind, by simpa using hdel, ?_⟩)
                        simp [createBook, hval, hg, hfind, hdel]
                        simp_all [falsyS, falsyI]
                    | none =>
                      refine Or.inr (Or.inr ⟨t, w, pbl, y, pr, q, gid,
                        rfl, rfl, rfl, rfl, rfl, rfl, rfl, hfind, ?_⟩)
                      simp [createBook, hval, hg, hfind]
                      simp_all [falsyS, falsyI]

/-- Claim C2 as stated: across every store and every operation of the
API, stocks never go negative. -/
def claimC2Stated : Prop :=
  ∀ (s : Store), storeWF s → nonnegStocks s →
    (∀ (book_id : String) (req : UpdateBookRequest),
      nonnegStocks (updateBook s book_id req).2) ∧
    (∀ (req : CreateBookRequest) (newId : String),
      nonnegStocks (createBook s req newId).2) ∧
    (∀ (req : CreateTransactionRequest) (orderId : String) (oracle : Nat → Bool),
      nonnegStocks (createTransaction s req orderId oracle).2)

/-- C2 (counterexample): `updateBook` copies the requested
`stock_quantity` without a sign check, so a single update request with
`stock_quantity = -1` drives a book's stock negative. -/
theorem claimC2_counterexample : ¬ claimC2Stated := by
  intro h
  have h2 := (h demoStore (by decide) (by decide)).1 "b1" ⟨none, none, some (-1)⟩
  revert h2
  decide

/-- C2 (amended): order creation never drives any stock negative — its
decrements happen only after the availability check, and duplicate-id
requests never reach the transaction — and book update/create preserve
nonnegative stocks whenever the stock they are asked to write is
nonnegative (the code does not validate the sign itself). -/
theorem claimC2_amended :
    (∀ (s : Store) (req : CreateTransactionRequest) (orderId : String)
        (oracle : Nat → Bool), storeWF s → nonnegStocks s →
        nonnegStocks (createTransaction s req orderId oracle).2) ∧
    (∀ (s : Store) (book_id : String) (req : UpdateBookRequest),
        (∀ k, req.stock_quantity = some k → 0 ≤ k) → nonnegStocks s →
        nonnegStocks (updateBook s book_id req).2) ∧
    (∀ (s : Store) (req : CreateBookRequest) (newId : String),
        (∀ k, req.stock_quantity = some k → 0 ≤ k) → nonnegStocks s →
        nonnegStocks (createBook s req newId).2) := by
  refine ⟨?_, ?_, ?_⟩
  · intro s req orderId oracle hwf hnn
    rcases createTransaction_cases s req orderId oracle with ⟨c, m, heq⟩ |
      ⟨uid, items, s2, hreq, hlen, hchk, htx, heq⟩
    · rw [heq]; exact hnn
    · rw [heq]
      obtain ⟨-, -, -, -, hbooks⟩ := txBody_ok s uid orderId items oracle s2 htx
      intro b hb
      rw [hbooks] at hb
      exact foldl_decStock_nonneg items s.books hnn
        (batch_complete s items hwf hlen).1
        (stock_check_store s items hwf hchk) b hb
  · intro s book_id req hk hnn
    unfold updateBook
    cases hfind : s.books.find? (fun b => b.id == book_id && b.deleted_at == none) with
    | none => exact hnn
    | some existing =>
      by_cases hempty : (req.description == none && req.price == none &&
          req.stock_quantity == none) = true
      · simp only [hempty, if_true]; exact hnn
      · simp only [hempty, if_false, Bool.false_eq_true]
        intro b hb
        obtain ⟨b0, hb0, rfl⟩ := List.mem_map.mp hb
        by_cases hid : (b0.id == book_id) = true
        · simp only [hid, if_true]
          cases hsq : req.stock_quantity with
          | none => simpa [hsq] using hnn b0 hb0
          | some k => simpa [hsq] using hk k hsq
        · simp only [hid, if_false, Bool.false_eq_true]
          exact hnn b0 hb0
  · intro s req newId hk hnn
    rcases createBook_cases s req newId with ⟨c, m, heq⟩ |
      ⟨t, w, pbl, y, pr, q, gid, existing, -, -, -, -, -, hq, -, -, -, heq⟩ |
      ⟨t, w, pbl, y, pr, q, gid, -, -, -, -, -, hq, -, -, heq⟩
    · rw [heq]; exact hnn
    · rw [heq]
      intro b hb
      obtain ⟨b0, hb0, rfl⟩ := List.mem_map.mp hb
      by_cases hid : (b0.id == existing.id) = true
      · simpa [hid] using hk q hq
      · simpa [hid] using hnn b0 hb0
    · rw [heq]
      intro b hb
      rcases List.mem_append.mp hb with hb0 | hb1
      · exact hnn b hb0
      · have : b = ⟨newId, t, w, pbl, req.description.getD "", y, pr, q, gid, none⟩ := by
          simpa using hb1
        rw [this]
        exact hk q hq

/-- Witness for C2 (amended): the three preservation statements at
concrete inputs. -/
theorem claimC2_amended_witness :
    nonnegStocks (createTransaction demoStore ⟨some "u1", some [⟨"b1", 2⟩]⟩ "o1" noFail).2 ∧
    nonnegStocks (updateBook demoStore "b1" ⟨none, none, some 7⟩).2 ∧
    nonnegStocks (createBook demoStore
      ⟨some "New", some "W", some "P", some "d", some 2020, some 9, some 4, some "g1"⟩ "b9").2 :=
  ⟨claimC2_amended.1 demoStore ⟨some "u1", some [⟨"b1", 2⟩]⟩ "o1" noFail
     (by decide) (by decide),
   claimC2_amended.2.1 demoStore "b1" ⟨none, none, some 7⟩
     (by intro k hk; cases hk; decide) (by decide),
   claimC2_amended.2.2 demoStore
     ⟨some "New", some "W", some "P", some "d", some 2020, some 9, some 4, some "g1"⟩ "b9"
     (by intro k hk; cases hk; decide) (by decide)⟩


/-- A request whose item list repeats a book id never succeeds: every
path of `createTransaction` on it returns an error with the store
unchanged. -/
theorem dup_ids_no_success (s : Store) (uid : String)
    (items : List TransactionItem) (orderId : String) (oracle : Nat → Bool)
    (hwf : storeWF s) (hdup : ¬ (items.map (fun i => i.book_id)).Nodup) :
    ∃ c m, createTransaction s ⟨some uid, some items⟩ orderId oracle =
      (HResult.err c m, s) := by
  rcases createTransaction_cases s ⟨some uid, some items⟩ orderId oracle with
    ⟨c, m, heq⟩ | ⟨uid2, items2, s2, hreq, hlen, -, -, -⟩
  · exact ⟨c, m, heq⟩
  · exfalso
    have hitems : items = items2 := by
      have := congrArg CreateTransactionRequest.items hreq
      simpa using this
    exact batch_fails_of_dup s items hwf hdup (hitems ▸ hlen)

/-- Claim C9 as stated (its conclusion): some request that repeats a book
id in several lines passes every per-line check and creates the order. -/
def claimC9Stated : Prop :=
  ∃ (s : Store) (uid : String) (items : List TransactionItem) (orderId : String)
    (oracle : Nat → Bool) (st : Nat) (msg : String) (data : List (String × JValue)),
    storeWF s ∧ ¬ (items.map (fun i => i.book_id)).Nodup ∧
    (createTransaction s ⟨some uid, some items⟩ orderId oracle).1 =
      HResult.ok st msg data

/-- C9 (counterexample): no duplicate-line request ever reaches the order
creation — the batch load returns fewer rows than there are lines, so
the handler stops with an error first. -/
theorem claimC9_counterexample : ¬ claimC9Stated := by
  rintro ⟨s, uid, items, orderId, oracle, st, msg, data, hwf, hdup, hok⟩
  obtain ⟨c, m, heq⟩ := dup_ids_no_success s uid items orderId oracle hwf hdup
  rw [heq] at hok
  exact HResult.noConfusion hok

/-- C9 (amended): a well-formed order request that repeats a book id in
more than one line is rejected with 404 "One or more books not found" by
the batch length check — before any per-line stock check runs — and the
store is unchanged, so no stock is ever decremented by the summed
quantity of duplicate lines. -/
theorem claimC9_amended (s : Store) (uid : String)
    (items : List TransactionItem) (orderId : String) (oracle : Nat → Bool)
    (hwf : storeWF s) (hdup : ¬ (items.map (fun i => i.book_id)).Nodup)
    (hvalid : (uid.isEmpty || items.isEmpty) = false)
    (huser : (s.users.find? (fun u => u.id == uid)).isSome) :
    createTransaction s ⟨some uid, some items⟩ orderId oracle =
      (HResult.err 404 "One or more books not found", s) := by
  obtain ⟨u, hu⟩ := Option.isSome_iff_exists.mp huser
  have hbne : ((booksFor s items).length != items.length) = true := by
    simpa using batch_fails_of_dup s items hwf hdup
  simp [createTransaction, hvalid, hu, hbne]

/-- Witness for C9 (amended): the concrete duplicate-line request whose
summed quantity (6) exceeds the stock (5) is rejected 404. -/
theorem claimC9_amended_witness :
    createTransaction demoStore ⟨some "u1", some [⟨"b1", 3⟩, ⟨"b1", 3⟩]⟩ "o1" noFail =
      (HResult.err 404 "One or more books not found", demoStore) :=
  claimC9_amended demoStore "u1" [⟨"b1", 3⟩, ⟨"b1", 3⟩] "o1" noFail
    (by decide) (by decide) (by decide) (by decide)

/-- C10: `updateBook` on an existing non-deleted book with no updatable
field supplied fails 400 with the store unchanged; with at least one
field supplied it responds 200 and rewrites only the description, price
and stock of rows bearing the targeted id, leaving every row's title,
writer, publisher, publication year, genre and deletion mark — and every
other row entirely — unchanged. -/
theorem claimC10_update_frame :
    (∀ (s : Store) (book_id : String) (req : UpdateBookRequest),
      (s.books.find? (fun b => b.id == book_id && b.deleted_at == none)).isSome →
      req.description = none → req.price = none → req.stock_quantity = none →
      updateBook s book_id req = (HResult.err 400 "No fields to update", s)) ∧
    (∀ (s : Store) (book_id : String) (req : UpdateBookRequest),
      (s.books.find? (fun b => b.id == book_id && b.deleted_at == none)).isSome →
      ¬ (req.description = none ∧ req.price = none ∧ req.stock_quantity = none) →
      (∃ d, (updateBook s book_id req).1 = HResult.ok 200 "Book updated successfully" d) ∧
      (updateBook s book_id req).2.users = s.users ∧
      (updateBook s book_id req).2.genres = s.genres ∧
      (updateBook s book_id req).2.orders = s.orders ∧
      (updateBook s book_id req).2.orderItems = s.orderItems ∧
      ∀ b ∈ s.books,
        (b.id ≠ book_id → b ∈ (updateBook s book_id req).2.books) ∧
        (b.id = book_id →
          ∃ b2 ∈ (updateBook s book_id req).2.books,
            b2.id = b.id ∧ b2.title = b.title ∧ b2.writer = b.writer ∧
            b2.publisher = b.publisher ∧ b2.publication_year = b.publication_year ∧
            b2.genre_id = b.genre_id ∧ b2.deleted_at = b.deleted_at ∧
            b2.description = req.description.getD b.description ∧
            b2.price = req.price.getD b.price ∧
            b2.stock_quantity = req.stock_quantity.getD b.stock_quantity)) := by
  constructor
  · intro s book_id req hsome hd hp hq
    obtain ⟨existing, hfind⟩ := Option.isSome_iff_exists.mp hsome
    have hempty : (req.description == none && req.price == none &&
        req.stock_quantity == none) = true := by simp [hd, hp, hq]
    simp [updateBook, hfind, hempty]
  · intro s book_id req hsome hne
    obtain ⟨existing, hfind⟩ := Option.isSome_iff_exists.mp hsome
    have hempty : (req.description == none && req.price == none &&
        req.stock_quantity == none) = false := by
      obtain ⟨d0, p0, q0⟩ := req
      simp only [not_and] at hne
      cases d0 <;> cases p0 <;> cases q0 <;> simp_all
    refine ⟨⟨[("id", JValue.jstr existing.id), ("title", JValue.jstr existing.title)],
      by simp [updateBook, hfind, hempty]⟩,
      by simp [updateBook, hfind, hempty], by simp [updateBook, hfind, hempty],
      by simp [updateBook, hfind, hempty], by simp [updateBook, hfind, hempty], ?_⟩
    intro b hb
    constructor
    · intro hid
      have : (b.id == book_id) = false := by simpa using hid
      simp only [updateBook, hfind, hempty, if_false, Bool.false_eq_true]
      exact List.mem_map.mpr ⟨b, hb, by simp [this]⟩
    · intro hid
      have hidb : (b.id == book_id) = true := by simpa using hid
      refine ⟨{ b with description := req.description.getD b.description,
                       price := req.price.getD b.price,
                       stock_quantity := req.stock_quantity.getD b.stock_quantity },
        ?_, by simp⟩
      simp only [updateBook, hfind, hempty, if_false, Bool.false_eq_true]
      exact List.mem_map.mpr ⟨b, hb, by simp [hidb]⟩

/-- Witness for C10: the 400 case on a field-less request and the frame
of a stock-only update, on the concrete store. -/
theorem claimC10_witness :
    updateBook demoStore "b1" ⟨none, none, none⟩ =
      (HResult.err 400 "No fields to update", demoStore) ∧
    ((∃ d, (updateBook demoStore "b1" ⟨none, none, some 7⟩).1 =
        HResult.ok 200 "Book updated successfully" d) ∧
      (updateBook demoStore "b1" ⟨none, none, some 7⟩).2.users = demoStore.users ∧
      (updateBook demoStore "b1" ⟨none, none, some 7⟩).2.genres = demoStore.genres ∧
      (updateBook demoStore "b1" ⟨none, none, some 7⟩).2.orders = demoStore.orders ∧
      (updateBook demoStore "b1" ⟨none, none, some 7⟩).2.orderItems = demoStore.orderItems ∧
      ∀ b ∈ demoStore.books,
        (b.id ≠ "b1" → b ∈ (updateBook demoStore "b1" ⟨none, none, some 7⟩).2.books) ∧
        (b.id = "b1" →
          ∃ b2 ∈ (updateBook demoStore "b1" ⟨none, none, some 7⟩).2.books,
            b2.id = b.id ∧ b2.title = b.title ∧ b2.writer = b.writer ∧
            b2.publisher = b.publisher ∧ b2.publication_year = b.publication_year ∧
            b2.genre_id = b.genre_id ∧ b2.deleted_at = b.deleted_at ∧
            b2.description = (none : Option String).getD b.description ∧
            b2.price = (none : Option Int).getD b.price ∧
            b2.stock_quantity = (some (7:Int)).getD b.stock_quantity)) :=
  ⟨claimC10_update_frame.1 demoStore "b1" ⟨none, none, none⟩
     (by decide) rfl rfl rfl,
   claimC10_update_frame.2 demoStore "b1" ⟨none, none, some 7⟩
     (by decide) (by simp)⟩


/-- When every item's book is findable and some item's stock check fails,
the validation loop stops with the 400 insufficient-stock error naming
an actually offending book. -/
theorem checkItems_insufficient (books : List Book) :
    ∀ (items : List TransactionItem),
      (∀ it ∈ items, ((books.find? (fun b => b.id == it.book_id))).isSome) →
      (∃ i ∈ items, ∃ b, books.find? (fun b => b.id == i.book_id) = some b ∧
        b.stock_quantity < i.quantity) →
      ∃ i ∈ items, ∃ b, books.find? (fun b => b.id == i.book_id) = some b ∧
        b.stock_quantity < i.quantity ∧
        checkItems books items =
          some (HResult.err 400 ("Insufficient stock for book: " ++ b.title)) := by
  intro items
  induction items with
  | nil =>
    rintro - ⟨i, hi, -⟩
    exact absurd hi (List.not_mem_nil i)
  | cons hd rest ih =>
    intro hfound hex
    obtain ⟨b, hb⟩ := Option.isSome_iff_exists.mp (hfound hd (List.mem_cons_self hd rest))
    have hstep : checkItems books (hd :: rest) =
        (if b.stock_quantity < hd.quantity then
           some (HResult.err 400 ("Insufficient stock for book: " ++ b.title))
         else checkItems books rest) := by
      simp only [checkItems, hb]
    by_cases hstock : b.stock_quantity < hd.quantity
    · exact ⟨hd, List.mem_cons_self hd rest, b, hb, hstock,
        by rw [hstep, if_pos hstock]⟩
    · obtain ⟨i, hi, b2, hb2, hlt⟩ := hex
      have hirest : i ∈ rest := by
        rcases List.mem_cons.mp hi with rfl | h
        · exfalso; rw [hb] at hb2; cases hb2; exact hstock hlt
        · exact h
      obtain ⟨i2, hi2, b3, hb3, hlt3, hchk⟩ :=
        ih (fun it hit => hfound it (List.mem_cons_of_mem hd hit))
          ⟨i, hirest, b2, hb2, hlt⟩
      exact ⟨i2, List.mem_cons_of_mem hd hi2, b3, hb3, hlt3,
        by rw [hstep, if_neg hstock, hchk]⟩

/-- C3: the error cases of `createTransaction`, each leaving the store
unchanged: 400 when the user id or the item list is missing or the list
is empty; 404 when the user does not exist; 404 "One or more books not
found" when some requested book id has no non-deleted row; and 400
naming the offending book when some line's quantity exceeds its book's
stock. -/
theorem claimC3_error_cases :
    (∀ (s : Store) (req : CreateTransactionRequest) (orderId : String)
        (oracle : Nat → Bool),
      (req.user_id = none ∨ req.items = none ∨ req.items = some []) →
      createTransaction s req orderId oracle =
        (HResult.err 400 "Invalid request data", s)) ∧
    (∀ (s : Store) (uid : String) (items : List TransactionItem)
        (orderId : String) (oracle : Nat → Bool),
      uid.isEmpty = false → items.isEmpty = false →
      (∀ u ∈ s.users, u.id ≠ uid) →
      createTransaction s ⟨some uid, some items⟩ orderId oracle =
        (HResult.err 404 "User not found", s)) ∧
    (∀ (s : Store) (uid : String) (items : List TransactionItem)
        (orderId : String) (oracle : Nat → Bool),
      storeWF s → uid.isEmpty = false → items.isEmpty = false →
      (s.users.find? (fun u => u.id == uid)).isSome →
      (∃ i ∈ items, ∀ b ∈ s.books, ¬ (b.id = i.book_id ∧ b.deleted_at = none)) →
      createTransaction s ⟨some uid, some items⟩ orderId oracle =
        (HResult.err 404 "One or more books not found", s)) ∧
    (∀ (s : Store) (uid : String) (items : List TransactionItem)
        (orderId : String) (oracle : Nat → Bool),
      storeWF s → uid.isEmpty = false → items.isEmpty = false →
      (s.users.find? (fun u => u.id == uid)).isSome →
      (booksFor s items).length = items.length →
      (∃ i ∈ items, ∃ b, (booksFor s items).find? (fun b => b.id == i.book_id) = some b ∧
        b.stock_quantity < i.quantity) →
      ∃ i ∈ items, ∃ b,
        (booksFor s items).find? (fun b => b.id == i.book_id) = some b ∧
        b.stock_quantity < i.quantity ∧
        createTransaction s ⟨some uid, some items⟩ orderId oracle =
          (HResult.err 400 ("Insufficient stock for book: " ++ b.title), s)) := by
  refine ⟨?_, ?_, ?_, ?_⟩
  · rintro s ⟨uo, io⟩ orderId oracle (h | h | h)
    · simp only at h
      subst h
      cases io <;> simp [createTransaction]
    · simp only at h
      subst h
      cases uo <;> simp [createTransaction]
    · simp only at h
      subst h
      cases uo <;> simp [createTransaction]
  · intro s uid items orderId oracle h1 h2 hno
    have hfind : s.users.find? (fun u => u.id == uid) = none :=
      List.find?_eq_none.mpr (fun u hu => by simpa using hno u hu)
    simp [createTransaction, h1, h2, hfind]
  · intro s uid items orderId oracle hwf h1 h2 huser hmiss
    obtain ⟨u, hu⟩ := Option.isSome_iff_exists.mp huser
    obtain ⟨i, hi, hnb⟩ := hmiss
    have hbne : ((booksFor s items).length != items.length) = true := by
      simpa using batch_fails_of_missing s items hwf hi hnb
    simp [createTransaction, h1, h2, hu, hbne]
  · intro s uid items orderId oracle hwf h1 h2 huser hlen hex
    obtain ⟨u, hu⟩ := Option.isSome_iff_exists.mp huser
    have hfound : ∀ it ∈ items,
        (((booksFor s items).find? (fun b => b.id == it.book_id))).isSome := by
      intro it hit
      obtain ⟨b, hbmem, hbid⟩ :=
        (batch_complete s items hwf hlen).2 it.book_id
          (List.mem_map.mpr ⟨it, hit, rfl⟩)
      exact List.find?_isSome.mpr ⟨b, hbmem, by simp [hbid]⟩
    obtain ⟨i, hi, b, hb, hlt, hchk⟩ :=
      checkItems_insufficient (booksFor s items) items hfound hex
    refine ⟨i, hi, b, hb, hlt, ?_⟩
    have hbne : ((booksFor s items).length != items.length) = false := by
      simp [hlen]
    simp [createTransaction, h1, h2, hu, hbne, hchk]

/-- Witness for C3: one concrete request per error case. -/
theorem claimC3_witness :
    createTransaction demoStore ⟨none, some [⟨"b1", 1⟩]⟩ "o1" noFail =
      (HResult.err 400 "Invalid request data", demoStore) ∧
    createTransaction demoStore ⟨some "ux", some [⟨"b1", 1⟩]⟩ "o1" noFail =
      (HResult.err 404 "User not found", demoStore) ∧
    createTransaction demoStore ⟨some "u1", some [⟨"zz", 1⟩]⟩ "o1" noFail =
      (HResult.err 404 "One or more books not found", demoStore) ∧
    (∃ i ∈ ([⟨"b1", 9⟩] : List TransactionItem), ∃ b,
      (booksFor demoStore [⟨"b1", 9⟩]).find? (fun b => b.id == i.book_id) = some b ∧
      b.stock_quantity < i.quantity ∧
      createTransaction demoStore ⟨some "u1", some [⟨"b1", 9⟩]⟩ "o1" noFail =
        (HResult.err 400 ("Insufficient stock for book: " ++ b.title), demoStore)) :=
  ⟨claimC3_error_cases.1 demoStore ⟨none, some [⟨"b1", 1⟩]⟩ "o1" noFail (Or.inl rfl),
   claimC3_error_cases.2.1 demoStore "ux" [⟨"b1", 1⟩] "o1" noFail rfl rfl (by decide),
   claimC3_error_cases.2.2.1 demoStore "u1" [⟨"zz", 1⟩] "o1" noFail
     (by decide) rfl rfl (by decide) (by decide),
   claimC3_error_cases.2.2.2 demoStore "u1" [⟨"b1", 9⟩] "o1" noFail
     (by decide) rfl rfl (by decide) (by decide) (by decide)⟩

-- Book title uniqueness (schema constraint) ---------------------------------

/-- Schema-level uniqueness of book titles (the handler's `catch` relies
on Prisma's `P2002` unique-violation code for the title). -/
def titlesUnique (s : Store) : Prop :=
  (s.books.map (fun b => b.title)).Nodup

instance (s : Store) : Decidable (titlesUnique s) := by
  unfold titlesUnique; infer_instance

/-- In a list of books with pairwise-distinct titles, two members with
the same title are the same row. -/
theorem book_title_unique {l : List Book} (h : (l.map (fun b => b.title)).Nodup)
    {a b : Book} (ha : a ∈ l) (hb : b ∈ l) (ht : a.title = b.title) : a = b :=
  List.inj_on_of_nodup_map h ha hb ht

/-- C5: `createBook` follows the create-or-restore policy.  For a valid
request whose genre exists, on a store with unique titles: a non-deleted
book with the requested title makes the request fail 400 with the store
unchanged; a soft-deleted book with that title has that same row (same
id) overwritten with the request's fields and its `deleted_at` cleared,
with a 200 response; and with no book of that title a fresh row is
appended, with a 201 response. -/
theorem claimC5_create_or_restore (s : Store) (t w pbl : String)
    (dsc : Option String) (y pr q : Int) (gid newId : String)
    (huniq : titlesUnique s)
    (ht : t.isEmpty = false) (hw : w.isEmpty = false) (hp : pbl.isEmpty = false)
    (hy : y ≠ 0) (hpr : pr ≠ 0) (hg : gid.isEmpty = false)
    (hgenre : (s.genres.find? (fun g => g.id == gid && g.deleted_at == none)).isSome) :
    ((∃ b ∈ s.books, b.title = t ∧ b.deleted_at = none) →
      createBook s ⟨some t, some w, some pbl, dsc, some y, some pr, some q, some gid⟩ newId =
        (HResult.err 400 "Book with this title already exists", s)) ∧
    (∀ b ∈ s.books, b.title = t → b.deleted_at ≠ none →
      createBook s ⟨some t, some w, some pbl, dsc, some y, some pr, some q, some gid⟩ newId =
        (HResult.ok 200 "Book restored and updated successfully"
           [("id", JValue.jstr b.id), ("title", JValue.jstr b.title)],
         { s with books := s.books.map (fun c =>
             if c.id == b.id then
               { c with deleted_at := none, writer := w, publisher := pbl,
                        description := dsc.getD "", publication_year := y,
                        price := pr, stock_quantity := q, genre_id := gid }
             else c) })) ∧
    ((∀ b ∈ s.books, b.title ≠ t) →
      createBook s ⟨some t, some w, some pbl, dsc, some y, some pr, some q, some gid⟩ newId =
        (HResult.ok 201 "Book added successfully"
           [("id", JValue.jstr newId), ("title", JValue.jstr t)],
         { s with books := s.books ++
             [⟨newId, t, w, pbl, dsc.getD "", y, pr, q, gid, none⟩] })) := by
  have hft : falsyS (some t) = false := by simp [falsyS, ht]
  have hfw : falsyS (some w) = false := by simp [falsyS, hw]
  have hfp : falsyS (some pbl) = false := by simp [falsyS, hp]
  have hfy : falsyI (some y) = false := by simp [falsyI, hy]
  have hfpr : falsyI (some pr) = false := by simp [falsyI, hpr]
  have hfg : falsyS (some gid) = false := by simp [falsyS, hg]
  obtain ⟨g, hgen⟩ := Option.isSome_iff_exists.mp hgenre
  refine ⟨?_, ?_, ?_⟩
  · rintro ⟨b, hbmem, hbt, hbdel⟩
    have hsome : (s.books.find? (fun b2 => b2.title == t)).isSome :=
      List.find?_isSome.mpr ⟨b, hbmem, by simp [hbt]⟩
    obtain ⟨b2, hfind⟩ := Option.isSome_iff_exists.mp hsome
    have hb2t : b2.title = t := by simpa using List.find?_some hfind
    have hb2 : b2 = b :=
      book_title_unique huniq (List.mem_of_find?_eq_some hfind) hbmem
        (hb2t.trans hbt.symm)
    simp [createBook, hft, hfw, hfp, hfy, hfpr, hfg, hgen, hfind, hb2, hbdel]
  · intro b hbmem hbt hbdel
    have hsome : (s.books.find? (fun b2 => b2.title == t)).isSome :=
      List.find?_isSome.mpr ⟨b, hbmem, by simp [hbt]⟩
    obtain ⟨b2, hfind⟩ := Option.isSome_iff_exists.mp hsome
    have hb2t : b2.title = t := by simpa using List.find?_some hfind
    have hb2 : b2 = b :=
      book_title_unique huniq (List.mem_of_find?_eq_some hfind) hbmem
        (hb2t.trans hbt.symm)
    subst hb2
    simp [createBook, hft, hfw, hfp, hfy, hfpr, hfg, hgen, hfind, hbdel]
  · intro hno
    have hfind : s.books.find? (fun b => b.title == t) = none :=
      List.find?_eq_none.mpr (fun b hb => by simpa using hno b hb)
    simp [createBook, hft, hfw, hfp, hfy, hfpr, hfg, hgen, hfind]

/-- Witness for C5: on the concrete store, a duplicate active title fails
400, re-creating the soft-deleted "Old" restores row b3 with a 200, and
a fresh title inserts with a 201. -/
theorem claimC5_witness :
    createBook demoStore
        ⟨some "TAPL", some "W", some "P", some "d", some 2020, some 9, some 4, some "g1"⟩
        "b9" =
      (HResult.err 400 "Book with this title already exists", demoStore) ∧
    createBook demoStore
        ⟨some "Old", some "W", some "P", some "d", some 2020, some 9, some 4, some "g1"⟩
        "b9" =
      (HResult.ok 200 "Book restored and updated successfully"
         [("id", JValue.jstr "b3"), ("title", JValue.jstr "Old")],
       { demoStore with books :=
           [⟨"b1", "TAPL", "Pierce", "MIT", "types", 2002, 50, 5, "g1", none⟩,
            ⟨"b2", "SF", "Pierce", "UPenn", "coq", 2018, 30, 2, "g1", none⟩,
            ⟨"b3", "Old", "W", "P", "d", 2020, 9, 4, "g1", none⟩] }) ∧
    createBook demoStore
        ⟨some "Fresh", some "W", some "P", some "d", some 2020, some 9, some 4, some "g1"⟩
        "b9" =
      (HResult.ok 201 "Book added successfully"
         [("id", JValue.jstr "b9"), ("title", JValue.jstr "Fresh")],
       { demoStore with books := demoStore.books ++
           [⟨"b9", "Fresh", "W", "P", "d", 2020, 9, 4, "g1", none⟩] }) := by
  refine ⟨?_, ?_, ?_⟩
  · exact (claimC5_create_or_restore demoStore "TAPL" "W" "P" (some "d") 2020 9 4
      "g1" "b9" (by decide) rfl rfl rfl (by decide) (by decide) rfl (by decide)).1
      ⟨⟨"b1", "TAPL", "Pierce", "MIT", "types", 2002, 50, 5, "g1", none⟩,
        by decide, rfl, rfl⟩
  · have h := (claimC5_create_or_restore demoStore "Old" "W" "P" (some "d") 2020 9 4
      "g1" "b9" (by decide) rfl rfl rfl (by decide) (by decide) rfl (by decide)).2.1
      ⟨"b3", "Old", "Gone", "Dust", "", 1990, 10, 1, "g1", some 7⟩
      (by decide) rfl (by decide)
    exact h
  · exact (claimC5_create_or_restore demoStore "Fresh" "W" "P" (some "d") 2020 9 4
      "g1" "b9" (by decide) rfl rfl rfl (by decide) (by decide) rfl (by decide)).2.2
      (by decide)


